import Mathlib

/-!
Shallow embedding of `src/functions/aggregate-news/main.py` (startup-news
aggregator): the fetch → enrich → store pipeline of class `NewsAggregator`
and the HTTP entry point `main`.

External effects are modelled as explicit inputs:
* the HTTP/HTML world seen by `fetch_news` is an `HttpResult` (either the
  request/raise_for_status raised, or the list of candidate elements that
  `soup.select(source['selector'])` produced);
* a candidate element is modelled by the results of its three `select_one`
  calls — a BeautifulSoup tag found by `select_one` is always truthy
  (bs4 `Tag.__bool__` returns `True`), so a found tag is `some` and carries
  its `get_text(strip=True)` text; a found anchor carries its optional
  `href` attribute (`link['href']` raises `KeyError` when absent);
* the Gemini service is a per-position oracle `Nat → AIResponse` giving, for
  each article, either "the call raised", "the text failed to decode as
  JSON", or the decoded JSON value;
* the Firestore `set` call is a per-position success oracle `Nat → Bool`;
* timestamps (`datetime.utcnow().isoformat()`) and the urllib helpers
  `urljoin` / `urlparse(...).netloc` are supplied by environment records
  (one timestamp per call; the claims under study do not depend on
  per-article clock drift).

Raising a Python exception is modelled with `Option`/`Except`: a step that
returns `none` / `.error` is one whose exception escapes to the enclosing
handler exactly as in the source.
-/

set_option autoImplicit false

namespace StartupNews

/-- Decoded JSON values, the possible results of `json.loads`. -/
inductive Json where
  | null
  | bool (b : Bool)
  | num (n : Int)
  | str (s : String)
  | arr (elems : List Json)
  | obj (fields : List (String × Json))

/-- A BeautifulSoup tag found by `select_one('h1, h2, h3, .title')` or
`select_one('p, .content, .description')`, reduced to the one observation the
code makes of it: `get_text(strip=True)`.  The text may be empty even though
the tag was found (e.g. `<h1></h1>` or a whitespace-only heading). -/
structure Tag where
  text : String

/-- An anchor found by `select_one('a')`; `href` is `none` when the anchor has
no `href` attribute, in which case `link['href']` raises `KeyError`. -/
structure Anchor where
  href : Option String

/-- One candidate element produced by `soup.select(source['selector'])`, seen
through the three `select_one` calls the loop body performs on it. -/
structure Element where
  title : Option Tag
  content : Option Tag
  link : Option Anchor

/-- One entry of `SOURCES`. -/
structure Source where
  name : String
  url : String
  selector : String

/-- Ambient helpers used by `fetch_news`: the current UTC timestamp and the
urllib functions `urljoin` and `urlparse(...).netloc`. -/
structure FetchEnv where
  now : String
  urljoin : String → String → String
  netloc : String → String

/-- An article record as built by the pipeline.  The six core fields are set
by `fetch_news`; the five enrichment fields are dictionary keys that
`process_with_gemini` may add later, hence `Option` with `none` meaning
"key absent". -/
structure Article where
  source : String
  title : String
  content : String
  link : String
  fetched_at : String
  domain : String
  summary : Option Json := none
  category : Option Json := none
  entities : Option Json := none
  relevance_score : Option Json := none
  processed_at : Option String := none

/-- The six core fields of an article, used to state that enrichment neither
reorders articles nor touches what the fetcher produced. -/
def Article.core (a : Article) : String × String × String × String × String × String :=
  (a.source, a.title, a.content, a.link, a.fetched_at, a.domain)

/-- Outcome of `self.session.get(...)` / `response.raise_for_status()` /
HTML parsing / `soup.select(...)`: either some step before the extraction
loop raised (network error, timeout, non-2xx), or the list of selected
candidate elements.  BeautifulSoup itself degrades on malformed HTML rather
than raising, so a parsed document always lands in `ok`. -/
inductive HttpResult where
  | failure
  | ok (elements : List Element)

/-- Body of the `for elem in elements[:5]` loop (main.py lines 76-88) for one
candidate: `.ok none` when the candidate is skipped (`if title and content`
fails because a `select_one` returned `None`), `.ok (some a)` when an article
dictionary is appended, and `.error ()` when `link['href']` raises `KeyError`
(anchor present, `href` attribute absent) and the exception escapes to the
handler at function level. -/
def processElem (env : FetchEnv) (src : Source) (e : Element) :
    Except Unit (Option Article) :=
  match e.title, e.content with
  | some t, some c =>
      match e.link with
      | some anchor =>
          match anchor.href with
          | some h =>
              .ok (some { source := src.name, title := t.text, content := c.text,
                          link := env.urljoin src.url h, fetched_at := env.now,
                          domain := env.netloc src.url })
          | none => .error ()
      | none =>
          .ok (some { source := src.name, title := t.text, content := c.text,
                      link := src.url, fetched_at := env.now,
                      domain := env.netloc src.url })
  | _, _ => .ok none

/-- The extraction loop: articles accumulate until the list is exhausted or a
candidate raises; the exception is caught at function level, and the articles
accumulated so far are what `return articles` then returns. -/
def fetchLoop (env : FetchEnv) (src : Source) : List Element → List Article
  | [] => []
  | e :: es =>
    match processElem env src e with
    | .error _ => []
    | .ok none => fetchLoop env src es
    | .ok (some a) => a :: fetchLoop env src es

/-- `NewsAggregator.fetch_news` (main.py lines 65-92): a pre-loop failure
yields the still-empty `articles` list; otherwise the loop runs over the
first five candidates. -/
def fetch_news (env : FetchEnv) (src : Source) (h : HttpResult) : List Article :=
  match h with
  | .failure => []
  | .ok es => fetchLoop env src (es.take 5)

/-- Whether processing this candidate raises out of the loop. -/
def elemErrors (env : FetchEnv) (src : Source) (e : Element) : Bool :=
  match processElem env src e with
  | .error _ => true
  | .ok _ => false

theorem fetchLoop_eq (env : FetchEnv) (src : Source) (es : List Element) :
    fetchLoop env src es =
      (es.takeWhile (fun e => !elemErrors env src e)).filterMap
        (fun e => (processElem env src e).toOption.join) := by
  induction es with
  | nil => rfl
  | cons e es ih =>
      cases hpe : processElem env src e with
      | error u =>
          simp [fetchLoop, hpe, List.takeWhile_cons, elemErrors]
      | ok r =>
          cases r with
          | none =>
              simp [fetchLoop, hpe, List.takeWhile_cons, elemErrors, ih,
                Except.toOption]
          | some a =>
              simp [fetchLoop, hpe, List.takeWhile_cons, elemErrors, ih,
                Except.toOption]

theorem processElem_some (env : FetchEnv) (src : Source) (e : Element) (a : Article)
    (h : processElem env src e = .ok (some a)) :
    ∃ t c, e.title = some t ∧ e.content = some c ∧
      a.title = t.text ∧ a.content = c.text := by
  obtain ⟨t?, c?, l?⟩ := e
  cases t? with
  | none => exact absurd h (by simp [processElem])
  | some t =>
    cases c? with
    | none => exact absurd h (by simp [processElem])
    | some c =>
      refine ⟨t, c, rfl, rfl, ?_, ?_⟩ <;>
      · cases l? with
        | none =>
            simp only [processElem, Except.ok.injEq, Option.some.injEq] at h
            rw [← h]
        | some anchor =>
            cases hh : anchor.href with
            | none => simp [processElem, hh] at h
            | some s =>
                simp only [processElem, hh, Except.ok.injEq, Option.some.injEq] at h
                rw [← h]

theorem fetchLoop_mem (env : FetchEnv) (src : Source) (es : List Element) (a : Article)
    (ha : a ∈ fetchLoop env src es) :
    ∃ e ∈ es, processElem env src e = .ok (some a) := by
  induction es with
  | nil => cases ha
  | cons e es ih =>
      rw [fetchLoop] at ha
      cases hpe : processElem env src e with
      | error u => rw [hpe] at ha; cases ha
      | ok r =>
          cases r with
          | none =>
              rw [hpe] at ha
              obtain ⟨e', he', hp⟩ := ih ha
              exact ⟨e', List.mem_cons_of_mem _ he', hp⟩
          | some b =>
              rw [hpe] at ha
              rcases List.mem_cons.mp ha with h | h
              · exact ⟨e, List.mem_cons_self _ _, h ▸ hpe⟩
              · obtain ⟨e', he', hp⟩ := ih h
                exact ⟨e', List.mem_cons_of_mem _ he', hp⟩

/-- Claim C1 (amended): `fetch_news` is a total function (it never raises to
its caller); a failure before the extraction loop — network error, timeout,
non-2xx — yields the empty list; but an error raised inside the extraction
loop (the `KeyError` from `link['href']`) only stops the loop, and the
articles accumulated from the candidates processed before the erroring one
are returned, so an error during extraction need not yield an empty
sequence. -/
theorem fetch_never_raises_partial (env : FetchEnv) (src : Source) :
    fetch_news env src .failure = [] ∧
    ∀ es : List Element,
      fetch_news env src (.ok es) =
        ((es.take 5).takeWhile (fun e => !elemErrors env src e)).filterMap
          (fun e => (processElem env src e).toOption.join) :=
  ⟨rfl, fun es => fetchLoop_eq env src (es.take 5)⟩

/-- Environment and source fixtures used by concrete fetch evaluations. -/
def envC : FetchEnv :=
  { now := "2026-01-01T00:00:00", urljoin := fun _ h => h,
    netloc := fun _ => "example.com" }

def srcC : Source :=
  { name := "Example News", url := "https://example.com", selector := "article" }

/-- A candidate that extracts cleanly (no anchor, so `link` falls back to the
source URL). -/
def goodElem : Element :=
  { title := some ⟨"Title A"⟩, content := some ⟨"Body A"⟩, link := none }

/-- A candidate whose anchor has no `href` attribute: `link['href']` raises
`KeyError`. -/
def badElem : Element :=
  { title := some ⟨"Title B"⟩, content := some ⟨"Body B"⟩, link := some ⟨none⟩ }

/-- Claim C1 counterexample: processing the second candidate raises
(`KeyError` on `link['href']`), yet `fetch_news` returns the non-empty list
of articles accumulated before the error — not the empty sequence the claim
requires whenever any error occurs. -/
theorem fetch_error_nonempty :
    elemErrors envC srcC badElem = true ∧
    fetch_news envC srcC (.ok [goodElem, badElem]) ≠ [] := by
  refine ⟨rfl, fun h => ?_⟩
  have hlen : (fetch_news envC srcC (.ok [goodElem, badElem])).length = 1 := rfl
  rw [h] at hlen
  cases hlen

/-- A candidate whose title tag was found but whose stripped text is empty —
e.g. `<h1></h1>` followed by `<p>Some body</p>`. -/
def emptyTitleElem : Element :=
  { title := some ⟨""⟩, content := some ⟨"Some body"⟩, link := none }

/-- Claim C2 counterexample: `if title and content` only tests that the two
`select_one` calls found a tag (a found bs4 tag is always truthy), not that
the extracted text is non-empty, so a candidate with a present-but-empty
title tag produces a record whose title is the empty string. -/
theorem fetch_emits_empty_title :
    (fetch_news envC srcC (.ok [emptyTitleElem])).map Article.title = [""] := rfl

/-- Claim C2 (amended): every record `fetch_news` emits takes its title and
content verbatim from title/content sub-elements that `select_one` found in
some candidate, and a candidate lacking either sub-element is excluded; the
extracted strings themselves, however, may be empty. -/
theorem fetch_title_content_from_found_tags (env : FetchEnv) (src : Source)
    (es : List Element) (a : Article)
    (ha : a ∈ fetch_news env src (.ok es)) :
    (∃ e ∈ es.take 5, ∃ t c, e.title = some t ∧ e.content = some c ∧
        a.title = t.text ∧ a.content = c.text) ∧
    ∀ e : Element, (e.title = none ∨ e.content = none) →
      processElem env src e = .ok none := by
  constructor
  · obtain ⟨e, he, hp⟩ := fetchLoop_mem env src (es.take 5) a ha
    obtain ⟨t, c, h1, h2, h3, h4⟩ := processElem_some env src e a hp
    exact ⟨e, he, t, c, h1, h2, h3, h4⟩
  · intro e he
    obtain ⟨t?, c?, l?⟩ := e
    rcases he with h | h
    · simp only at h; rw [h]; rfl
    · simp only at h
      rw [h]
      cases t? <;> rfl

/-- The single article that `fetch_news envC srcC (.ok [goodElem])`
produces. -/
def goodArticle : Article :=
  { source := "Example News", title := "Title A", content := "Body A",
    link := "https://example.com", fetched_at := "2026-01-01T00:00:00",
    domain := "example.com" }

/-- Witness for claim C2's amended theorem at a concrete input. -/
theorem fetch_title_content_witness :
    (∃ e ∈ [goodElem].take 5, ∃ t c, e.title = some t ∧ e.content = some c ∧
        goodArticle.title = t.text ∧ goodArticle.content = c.text) ∧
    ∀ e : Element, (e.title = none ∨ e.content = none) →
      processElem envC srcC e = .ok none :=
  fetch_title_content_from_found_tags envC srcC [goodElem] goodArticle
    (List.mem_singleton.mpr rfl)

/-- Ambient state of `process_with_gemini`: the `GEMINI_API_KEY` environment
variable as read in `__init__` (absent, or present with some string value)
and the `processed_at` timestamp. -/
structure EnrichEnv where
  gemini_api_key : Option String
  now : String

/-- Outcome of `model.generate_content(prompt)` followed by
`json.loads(response.text)` for one article: the service call raised, the
text failed to decode as JSON (`json.JSONDecodeError`), or it decoded to the
JSON value `j`. -/
inductive AIResponse where
  | genFail
  | badJson
  | parsed (j : Json)

/-- Python `dict.get(key)` on the decoded object's field list (first binding
wins, as in a Python dict each key occurs once). -/
def jLookup : List (String × Json) → String → Option Json
  | [], _ => none
  | (k, v) :: rest, key => if k == key then some v else jLookup rest key

/-- Python `dict.get(key, dflt)`. -/
def jGetD (fields : List (String × Json)) (key : String) (dflt : Json) : Json :=
  (jLookup fields key).getD dflt

/-- The `article.update({...})` of main.py lines 122-128, applied when
`json.loads` returned the object `fields`: all five enrichment keys are set,
with the defaults used by the corresponding `analysis.get` calls. -/
def applyAnalysis (env : EnrichEnv) (a : Article) (fields : List (String × Json)) :
    Article :=
  { a with
      summary := some (jGetD fields "summary" (.str "")),
      category := some (jGetD fields "category" (.str "Other")),
      entities := some (jGetD fields "entities" (.arr [])),
      relevance_score := some (jGetD fields "relevance_score" (.num 5)),
      processed_at := some env.now }

/-- One iteration of the `for article in articles` loop: `none` means the
iteration raised an exception that escapes to the `except Exception` handler
wrapping the whole loop — either `generate_content` raised, or `json.loads`
succeeded with a non-object value and `analysis.get` raised
`AttributeError` (only `json.JSONDecodeError` is caught per-article).
A `JSONDecodeError` is caught by the inner handler and leaves the article
untouched. -/
def enrichStep (env : EnrichEnv) (a : Article) : AIResponse → Option Article
  | .genFail => none
  | .badJson => some a
  | .parsed (.obj fields) => some (applyAnalysis env a fields)
  | .parsed _ => none

/-- Whether a response makes its loop iteration raise out of the loop
(independent of the article being processed). -/
def aborts : AIResponse → Bool
  | .genFail => true
  | .badJson => false
  | .parsed (.obj _) => false
  | .parsed _ => true

/-- The article a non-aborting iteration leaves at this position. -/
def stepFn (env : EnrichEnv) (a : Article) : AIResponse → Article
  | .parsed (.obj fields) => applyAnalysis env a fields
  | _ => a

/-- The enrichment loop over the (mutable, in-place) article list: position
`i` receives response `resp i`; an aborting iteration returns the remaining
suffix untouched (the outer handler catches the exception and
`return articles` returns the list with whatever updates were already
applied). -/
def enrichLoop (env : EnrichEnv) (resp : Nat → AIResponse) :
    Nat → List Article → List Article
  | _, [] => []
  | i, a :: rest =>
    match enrichStep env a (resp i) with
    | none => a :: rest
    | some a' => a' :: enrichLoop env resp (i + 1) rest

/-- Python truthiness of `self.gemini_api_key`: falsy when the environment
variable is unset (`None`) or set to the empty string. -/
def pyTruthy : Option String → Bool
  | none => false
  | some s => !(s == "")

/-- `NewsAggregator.process_with_gemini` (main.py lines 94-135):
`if not self.gemini_api_key or not articles: return articles`, else run the
per-article loop under the outer `except Exception` handler and return the
(in-place updated) list. -/
def process_with_gemini (env : EnrichEnv) (resp : Nat → AIResponse)
    (articles : List Article) : List Article :=
  if !pyTruthy env.gemini_api_key || articles.isEmpty then articles
  else enrichLoop env resp 0 articles

theorem stepFn_core (env : EnrichEnv) (a : Article) (r : AIResponse) :
    (stepFn env a r).core = a.core := by
  cases r with
  | genFail => rfl
  | badJson => rfl
  | parsed j => cases j <;> rfl

theorem enrichStep_of_not_aborts (env : EnrichEnv) (a : Article) (r : AIResponse)
    (h : aborts r = false) : enrichStep env a r = some (stepFn env a r) := by
  cases r with
  | genFail => cases h
  | badJson => rfl
  | parsed j => cases j <;> first | rfl | cases h

theorem enrichStep_of_aborts (env : EnrichEnv) (a : Article) (r : AIResponse)
    (h : aborts r = true) : enrichStep env a r = none := by
  cases r with
  | genFail => rfl
  | badJson => cases h
  | parsed j => cases j <;> first | rfl | cases h

theorem enrichLoop_length (env : EnrichEnv) (resp : Nat → AIResponse)
    (i : Nat) (articles : List Article) :
    (enrichLoop env resp i articles).length = articles.length := by
  induction articles generalizing i with
  | nil => rfl
  | cons a rest ih =>
      rw [enrichLoop]
      cases enrichStep env a (resp i) with
      | none => rfl
      | some a' => simpa using ih (i + 1)

theorem enrichLoop_core (env : EnrichEnv) (resp : Nat → AIResponse)
    (i : Nat) (articles : List Article) (k : Nat) :
    ((enrichLoop env resp i articles)[k]?).map Article.core =
      (articles[k]?).map Article.core := by
  induction articles generalizing i k with
  | nil => rfl
  | cons a rest ih =>
      rw [enrichLoop]
      cases hs : enrichStep env a (resp i) with
      | none => rfl
      | some a' =>
          cases k with
          | zero =>
              have hcore : a'.core = a.core := by
                cases hr : aborts (resp i) with
                | false =>
                    have := enrichStep_of_not_aborts env a (resp i) hr
                    rw [this] at hs
                    cases hs
                    exact stepFn_core env a (resp i)
                | true =>
                    rw [enrichStep_of_aborts env a (resp i) hr] at hs
                    cases hs
              simp [hcore]
          | succ k => simpa using ih (i + 1) k

theorem enrichLoop_get_noabort (env : EnrichEnv) (resp : Nat → AIResponse)
    (i : Nat) (articles : List Article)
    (hab : ∀ k, k < articles.length → aborts (resp (i + k)) = false) :
    ∀ k a, articles[k]? = some a →
      (enrichLoop env resp i articles)[k]? = some (stepFn env a (resp (i + k))) := by
  induction articles generalizing i with
  | nil => intro k a ha; cases ha
  | cons b rest ih =>
      intro k a ha
      have hb : aborts (resp i) = false := by
        have := hab 0 (Nat.succ_pos _)
        simpa using this
      rw [enrichLoop, enrichStep_of_not_aborts env b (resp i) hb]
      cases k with
      | zero =>
          simp only [List.getElem?_cons_zero, Option.some.injEq] at ha
          subst ha
          simp
      | succ k =>
          have ha' : rest[k]? = some a := by simpa using ha
          have hab' : ∀ m, m < rest.length → aborts (resp (i + 1 + m)) = false := by
            intro m hm
            have := hab (m + 1) (by simpa using Nat.succ_lt_succ hm)
            simpa [Nat.add_assoc, Nat.add_comm 1 m] using this
          have := ih (i + 1) hab' k a ha'
          simpa [Nat.add_assoc, Nat.add_comm 1 k] using this

theorem enrichLoop_get_prefix (env : EnrichEnv) (resp : Nat → AIResponse)
    (i : Nat) (articles : List Article) (k : Nat) (a : Article)
    (hpre : ∀ j, j < k → aborts (resp (i + j)) = false)
    (hk : aborts (resp (i + k)) = false)
    (ha : articles[k]? = some a) :
    (enrichLoop env resp i articles)[k]? = some (stepFn env a (resp (i + k))) := by
  induction articles generalizing i k with
  | nil => cases ha
  | cons b rest ih =>
      cases k with
      | zero =>
          simp only [List.getElem?_cons_zero, Option.some.injEq] at ha
          subst ha
          rw [enrichLoop, enrichStep_of_not_aborts env b (resp i) (by simpa using hk)]
          simp
      | succ k =>
          have hb : aborts (resp i) = false := by
            have := hpre 0 (Nat.succ_pos _)
            simpa using this
          rw [enrichLoop, enrichStep_of_not_aborts env b (resp i) hb]
          have ha' : rest[k]? = some a := by simpa using ha
          have hpre' : ∀ j, j < k → aborts (resp (i + 1 + j)) = false := by
            intro j hj
            have := hpre (j + 1) (Nat.succ_lt_succ hj)
            simpa [Nat.add_assoc, Nat.add_comm 1 j] using this
          have hk' : aborts (resp (i + 1 + k)) = false := by
            simpa [Nat.add_assoc, Nat.add_comm 1 k] using hk
          have := ih (i + 1) k hpre' hk' ha'
          simpa [Nat.add_assoc, Nat.add_comm 1 k] using this

/-- Claim C5: the enricher returns a list of exactly the input's length, with
the articles in the same order (position by position, the six core fields are
those of the input article at the same position), for every input batch and
every pattern of per-item success, parse failure, or phase abort. -/
theorem enrich_preserves_length_order (env : EnrichEnv) (resp : Nat → AIResponse)
    (articles : List Article) :
    (process_with_gemini env resp articles).length = articles.length ∧
    ∀ k : Nat, ((process_with_gemini env resp articles)[k]?).map Article.core =
      (articles[k]?).map Article.core := by
  unfold process_with_gemini
  split
  · exact ⟨rfl, fun _ => rfl⟩
  · exact ⟨enrichLoop_length env resp 0 articles,
      fun k => enrichLoop_core env resp 0 articles k⟩

/-- Claim C6: with no AI credential configured (unset or empty
`GEMINI_API_KEY`), or with an empty input batch, `process_with_gemini`
returns its input unchanged. -/
theorem enrich_identity_when_disabled (env : EnrichEnv) (resp : Nat → AIResponse)
    (articles : List Article)
    (h : pyTruthy env.gemini_api_key = false ∨ articles = []) :
    process_with_gemini env resp articles = articles := by
  rcases h with h | h <;> simp [process_with_gemini, h]

def envOff : EnrichEnv := { gemini_api_key := none, now := "2026-01-01T01:00:00" }

def envOn : EnrichEnv :=
  { gemini_api_key := some "test-key", now := "2026-01-01T01:00:00" }

/-- Witness for claim C6's theorem: with the credential absent, a concrete
one-article batch comes back unchanged even though the oracle would fail. -/
theorem enrich_identity_witness :
    process_with_gemini envOff (fun _ => AIResponse.genFail) [goodArticle] =
      [goodArticle] :=
  enrich_identity_when_disabled envOff (fun _ => AIResponse.genFail) [goodArticle]
    (Or.inl rfl)

/-- A plain fetched article, no enrichment keys. -/
def artX : Article :=
  { source := "Example News", title := "Title X", content := "Body X",
    link := "https://example.com", fetched_at := "2026-01-01T00:00:00",
    domain := "example.com" }

/-- A second plain fetched article. -/
def artY : Article :=
  { source := "Example News", title := "Title Y", content := "Body Y",
    link := "https://example.com", fetched_at := "2026-01-01T00:00:01",
    domain := "example.com" }

/-- Oracle for the C3 counterexample: article 0's response is valid JSON but
not an object (a JSON array), article 1's response is a perfectly good
object. -/
def respNonObj : Nat → AIResponse := fun i =>
  if i == 0 then .parsed (.arr []) else .parsed (.obj [("summary", .str "ok")])

/-- Claim C3 counterexample: article 0's response decodes as JSON but is not
an object, which the spec counts as failing to parse as the expected
structured format; only `json.JSONDecodeError` is caught per-article, so the
`AttributeError` from `analysis.get` escapes to the phase-level handler and
aborts the loop — sibling article 1, whose own response is a valid object, is
returned without any enrichment (its summary key is still absent). -/
theorem enrich_nonobject_aborts_siblings :
    aborts (respNonObj 0) = true ∧
    respNonObj 1 = .parsed (.obj [("summary", Json.str "ok")]) ∧
    process_with_gemini envOn respNonObj [artX, artY] = [artX, artY] ∧
    artY.summary = none :=
  ⟨rfl, rfl, rfl, rfl⟩

/-- Claim C3 (amended): if one article's response fails to decode as JSON at
all (`json.JSONDecodeError`) while no response in the batch raises out of
the loop (i.e. the others decode as JSON objects or also merely fail to
decode), then that article is returned untouched, the batch length is
preserved, and every article whose response decoded as a JSON object is
enriched normally.  (A response that decodes as JSON but is not an object is
NOT isolated this way: it aborts enrichment for all later articles, see the
counterexample.) -/
theorem enrich_badjson_isolated (env : EnrichEnv) (resp : Nat → AIResponse)
    (articles : List Article) (i : Nat) (a : Article)
    (hkey : pyTruthy env.gemini_api_key = true)
    (ha : articles[i]? = some a)
    (hi : resp i = .badJson)
    (hab : ∀ j, j < articles.length → aborts (resp j) = false) :
    (process_with_gemini env resp articles).length = articles.length ∧
    (process_with_gemini env resp articles)[i]? = some a ∧
    ∀ j b fields, articles[j]? = some b → resp j = .parsed (.obj fields) →
      (process_with_gemini env resp articles)[j]? =
        some (applyAnalysis env b fields) := by
  have hne : articles.isEmpty = false := by
    cases articles
    · cases ha
    · rfl
  have hPWG : process_with_gemini env resp articles = enrichLoop env resp 0 articles := by
    simp [process_with_gemini, hkey, hne]
  have hab0 : ∀ k, k < articles.length → aborts (resp (0 + k)) = false := by
    intro k hk
    rw [Nat.zero_add]
    exact hab k hk
  refine ⟨?_, ?_, ?_⟩
  · rw [hPWG]
    exact enrichLoop_length env resp 0 articles
  · have h2 := enrichLoop_get_noabort env resp 0 articles hab0 i a ha
    rw [Nat.zero_add] at h2
    rw [hPWG, h2, hi]
    rfl
  · intro j b fields hb hj
    have h3 := enrichLoop_get_noabort env resp 0 articles hab0 j b hb
    rw [Nat.zero_add] at h3
    rw [hPWG, h3, hj]
    rfl

/-- Oracle for the C3 witness: article 0 fails to decode, article 1 decodes
to a good object. -/
def respW3 : Nat → AIResponse := fun i =>
  if i == 0 then .badJson else .parsed (.obj [("summary", .str "s")])

/-- Witness for claim C3's amended theorem at a concrete two-article batch. -/
theorem enrich_badjson_isolated_witness :
    (process_with_gemini envOn respW3 [artX, artY]).length = 2 ∧
    (process_with_gemini envOn respW3 [artX, artY])[0]? = some artX ∧
    ∀ j b fields, [artX, artY][j]? = some b → respW3 j = .parsed (.obj fields) →
      (process_with_gemini envOn respW3 [artX, artY])[j]? =
        some (applyAnalysis envOn b fields) :=
  enrich_badjson_isolated envOn respW3 [artX, artY] 0 artX rfl rfl rfl (by decide)

/-- Oracle for the C9 counterexample: the response is a JSON object whose
relevance_score is 11. -/
def respScore11 : Nat → AIResponse := fun _ =>
  .parsed (.obj [("relevance_score", .num 11)])

/-- Claim C9 counterexample: the code stores `analysis.get('relevance_score', 5)`
verbatim, with no 1–10 validation, so a successfully parsed response carrying
relevance_score 11 produces a record whose relevance score is 11, outside the
claimed 1..10 range. -/
theorem enrich_relevance_out_of_range :
    (process_with_gemini envOn respScore11 [artX]).map Article.relevance_score =
      [some (Json.num 11)] ∧
    ¬ ((1 : Int) ≤ 11 ∧ (11 : Int) ≤ 10) :=
  ⟨rfl, by decide⟩

/-- Claim C9 (amended): for an article whose response decodes as a JSON
object — that is, any article the loop actually reaches, which only requires
that no earlier article's iteration raised; a later sibling's failure is
irrelevant since the in-place update has already happened — the record's
relevance score is taken verbatim from the object's relevance_score field,
whatever JSON value that is, with no 1–10 validation, and it equals 5
exactly when the field is absent. -/
theorem enrich_relevance_verbatim (env : EnrichEnv) (resp : Nat → AIResponse)
    (articles : List Article) (k : Nat) (a : Article)
    (fields : List (String × Json))
    (hkey : pyTruthy env.gemini_api_key = true)
    (ha : articles[k]? = some a)
    (hk : resp k = .parsed (.obj fields))
    (hpre : ∀ j, j < k → aborts (resp j) = false) :
    (process_with_gemini env resp articles)[k]? =
      some (applyAnalysis env a fields) ∧
    (applyAnalysis env a fields).relevance_score =
      some (jGetD fields "relevance_score" (Json.num 5)) ∧
    (jLookup fields "relevance_score" = none →
      (applyAnalysis env a fields).relevance_score = some (Json.num 5)) := by
  have hne : articles.isEmpty = false := by
    cases articles
    · cases ha
    · rfl
  have hPWG : process_with_gemini env resp articles = enrichLoop env resp 0 articles := by
    simp [process_with_gemini, hkey, hne]
  have hpre0 : ∀ j, j < k → aborts (resp (0 + j)) = false := by
    intro j hj
    rw [Nat.zero_add]
    exact hpre j hj
  have hk0 : aborts (resp (0 + k)) = false := by
    rw [Nat.zero_add, hk]
    rfl
  refine ⟨?_, rfl, ?_⟩
  · have h2 := enrichLoop_get_prefix env resp 0 articles k a hpre0 hk0 ha
    rw [Nat.zero_add] at h2
    rw [hPWG, h2, hk]
    rfl
  · intro h
    simp [applyAnalysis, jGetD, h]

/-- Oracle for the C9 witness: article 0 parses to an object omitting
relevance_score; article 1's service call raises, aborting the rest of the
phase. -/
def respW9 : Nat → AIResponse := fun i =>
  if i == 0 then .parsed (.obj []) else .genFail

/-- Witness for claim C9's amended theorem: with the field omitted, the
stored relevance score is the default 5 — even though the very next
sibling's call raises. -/
theorem enrich_relevance_witness :
    (process_with_gemini envOn respW9 [artX, artY])[0]? =
      some (applyAnalysis envOn artX []) ∧
    (applyAnalysis envOn artX []).relevance_score =
      some (jGetD [] "relevance_score" (Json.num 5)) ∧
    (jLookup [] "relevance_score" = none →
      (applyAnalysis envOn artX []).relevance_score = some (Json.num 5)) :=
  enrich_relevance_verbatim envOn respW9 [artX, artY] 0 artX [] rfl rfl rfl
    (by decide)

/-- Claim C10: for an article whose response decodes as a JSON object — any
article the loop reaches, i.e. no earlier article's iteration raised; a
later sibling's failure cannot undo the in-place update already applied —
the update always adds a summary key, equal to the object's summary field or
the empty string when that field is absent, whereas an article whose
response failed to decode as JSON is left exactly as it was, so it carries
no summary key unless it already had one. -/
theorem enrich_summary_always_present (env : EnrichEnv) (resp : Nat → AIResponse)
    (articles : List Article) (k : Nat) (a : Article)
    (fields : List (String × Json))
    (hkey : pyTruthy env.gemini_api_key = true)
    (ha : articles[k]? = some a)
    (hk : resp k = .parsed (.obj fields))
    (hpre : ∀ j, j < k → aborts (resp j) = false) :
    (process_with_gemini env resp articles)[k]? =
      some (applyAnalysis env a fields) ∧
    (applyAnalysis env a fields).summary =
      some (jGetD fields "summary" (Json.str "")) ∧
    (jLookup fields "summary" = none →
      (applyAnalysis env a fields).summary = some (Json.str "")) ∧
    ∀ m c, articles[m]? = some c → resp m = .badJson →
      (∀ j, j < m → aborts (resp j) = false) →
      (process_with_gemini env resp articles)[m]? = some c := by
  have hne : articles.isEmpty = false := by
    cases articles
    · cases ha
    · rfl
  have hPWG : process_with_gemini env resp articles = enrichLoop env resp 0 articles := by
    simp [process_with_gemini, hkey, hne]
  have hpre0 : ∀ j, j < k → aborts (resp (0 + j)) = false := by
    intro j hj
    rw [Nat.zero_add]
    exact hpre j hj
  have hk0 : aborts (resp (0 + k)) = false := by
    rw [Nat.zero_add, hk]
    rfl
  refine ⟨?_, rfl, ?_, ?_⟩
  · have h2 := enrichLoop_get_prefix env resp 0 articles k a hpre0 hk0 ha
    rw [Nat.zero_add] at h2
    rw [hPWG, h2, hk]
    rfl
  · intro h
    simp [applyAnalysis, jGetD, h]
  · intro m c hc hm hmpre
    have hmpre0 : ∀ j, j < m → aborts (resp (0 + j)) = false := by
      intro j hj
      rw [Nat.zero_add]
      exact hmpre j hj
    have hm0 : aborts (resp (0 + m)) = false := by
      rw [Nat.zero_add, hm]
      rfl
    have h3 := enrichLoop_get_prefix env resp 0 articles m c hmpre0 hm0 hc
    rw [Nat.zero_add] at h3
    rw [hPWG, h3, hm]
    rfl

/-- A third plain fetched article. -/
def artZ : Article :=
  { source := "Example News", title := "Title Z", content := "Body Z",
    link := "https://example.com", fetched_at := "2026-01-01T00:00:02",
    domain := "example.com" }

/-- Oracle for the C10 witness: article 0 parses to an object omitting
summary, article 1 fails to decode as JSON, article 2 parses to a JSON
string (not an object), which aborts the remainder of the phase. -/
def respW10 : Nat → AIResponse := fun i =>
  if i == 0 then .parsed (.obj [])
  else if i == 1 then .badJson
  else .parsed (.str "not an object")

/-- Witness for claim C10's theorem: article 0 ends up with a present-but-empty
summary and decode-failed article 1 comes back identical (no summary key),
even though article 2's non-object response aborts the rest of the phase. -/
theorem enrich_summary_witness :
    (process_with_gemini envOn respW10 [artX, artY, artZ])[0]? =
      some (applyAnalysis envOn artX []) ∧
    (applyAnalysis envOn artX []).summary =
      some (jGetD [] "summary" (Json.str "")) ∧
    (jLookup [] "summary" = none →
      (applyAnalysis envOn artX []).summary = some (Json.str "")) ∧
    ∀ m c, [artX, artY, artZ][m]? = some c → respW10 m = .badJson →
      (∀ j, j < m → aborts (respW10 j) = false) →
      (process_with_gemini envOn respW10 [artX, artY, artZ])[m]? = some c :=
  enrich_summary_always_present envOn respW10 [artX, artY, artZ] 0 artX []
    rfl rfl rfl (by decide)

/-- Character-by-character string transformation; both Python `str.lower()`
and `str.replace(' ', '_')` (single-character pattern) act independently on
each character. -/
def strMap (f : Char → Char) (s : String) : String :=
  String.mk (s.data.map f)

/-- Python `str.lower()` (modelled per character; the registry's source names
are ASCII). -/
def pyLower (s : String) : String := strMap Char.toLower s

/-- Python `str.replace(' ', '_')`. -/
def pyUnderscoreSpaces (s : String) : String :=
  strMap (fun c => if c = ' ' then '_' else c) s

/-- The Firestore document id of main.py line 144:
`f"{article['source'].lower().replace(' ', '_')}_{article['fetched_at']}"`. -/
def doc_id (a : Article) : String :=
  pyUnderscoreSpaces (pyLower a.source) ++ "_" ++ a.fetched_at

/-- The `for article in articles` loop of `store_articles`, position `i`
receiving upsert outcome `ok i`: returns the final `stored_count` together
with the list of upserts that completed (document id paired with the full
record), in program order.  A failing `set` is caught per item and the loop
continues. -/
def storeGo (ok : Nat → Bool) : Nat → List Article → Nat × List (String × Article)
  | _, [] => (0, [])
  | i, a :: rest =>
    let r := storeGo ok (i + 1) rest
    if ok i then (r.1 + 1, (doc_id a, a) :: r.2) else r

/-- `NewsAggregator.store_articles` (main.py lines 137-152): the returned
`stored_count`. -/
def store_articles (ok : Nat → Bool) (articles : List Article) : Nat :=
  (storeGo ok 0 articles).1

theorem storeGo_fst_le (ok : Nat → Bool) (l : List Article) :
    ∀ i : Nat, (storeGo ok i l).1 ≤ l.length := by
  induction l with
  | nil => intro i; exact Nat.le_refl 0
  | cons a rest ih =>
      intro i
      rw [storeGo]
      cases h : ok i with
      | true => simpa using Nat.succ_le_succ (ih (i + 1))
      | false => simpa using Nat.le_succ_of_le (ih (i + 1))

/-- Claim C7: `store_articles` is a total function of the batch and the
per-item upsert outcomes (it never raises to its caller), the count it
returns satisfies 0 ≤ count ≤ batch length, and each item contributes to the
count independently of every other item's outcome — a failing item
contributes 0 and the loop continues with the rest. -/
theorem store_count_bounds (ok : Nat → Bool) (articles : List Article) :
    0 ≤ store_articles ok articles ∧
    store_articles ok articles ≤ articles.length ∧
    ∀ (i : Nat) (a : Article) (rest : List Article),
      (storeGo ok i (a :: rest)).1 =
        (if ok i then 1 else 0) + (storeGo ok (i + 1) rest).1 := by
  refine ⟨Nat.zero_le _, storeGo_fst_le ok articles 0, ?_⟩
  intro i a rest
  rw [storeGo]
  cases h : ok i with
  | true => simp [Nat.add_comm]
  | false => simp

/-- The persistence key as the spec words it: the source name lowercased with
spaces mapped to underscores (one pass), then `"_"`, then the fetch
timestamp.  Written independently of `doc_id` to compare the two. -/
def persistenceKeySpec (source fetchedAt : String) : String :=
  strMap (fun c => if Char.toLower c = ' ' then '_' else Char.toLower c) source
    ++ "_" ++ fetchedAt

/-- Claim C8: the document id the persister writes under is exactly the
spec's derivation — source lowercased, spaces to underscores, an underscore
separator, then the fetched-at timestamp — and the derivation is
deterministic: recomputing it on the same record yields the identical key. -/
theorem doc_id_matches_spec (a : Article) :
    doc_id a = persistenceKeySpec a.source a.fetched_at ∧
    doc_id a = doc_id a := by
  refine ⟨?_, rfl⟩
  unfold doc_id persistenceKeySpec pyUnderscoreSpaces pyLower strMap
  rw [List.map_map]
  rfl

/-- Witness-style concrete key: `"Example News"` at a concrete timestamp. -/
theorem doc_id_concrete :
    doc_id artX = "example_news_2026-01-01T00:00:00" := by
  decide

/-- Outcome of `aggregator.run()` as observed by `main`: either the summary
dictionary it returns, or the message of the exception that escaped it. -/
inductive RunOutcome where
  | ok (summary : List (String × Json))
  | exn (msg : String)

/-- The HTTP entry point `main` (main.py lines 181-188), observed through the
decoded JSON it returns (`none` = Python returned `None`).  On the success
path it returns `json.dumps(result)`.  On the exception path the handler
(line 188) only logs: the error-returning line 189 is dedented to module
level — as written the file is a `SyntaxError` ('return' outside function),
and even reading the handler charitably the function body ends after the
logging call, so the function yields `None` rather than an error object. -/
def main (r : RunOutcome) : Option (List (String × Json)) :=
  match r with
  | .ok summary => some summary
  | .exn _ => none

/-- Claim C4 (code bug): when `run()` raises, `main` does not return a JSON
object with status "error" and a message — it produces no JSON value at all
(the dedented line 189 never executes; the module is in fact a SyntaxError),
while the success path returns the summary unchanged. -/
theorem main_error_returns_none :
    main (.exn "boom") = none ∧
    ∀ s : List (String × Json), main (.ok s) = some s :=
  ⟨rfl, fun _ => rfl⟩

end StartupNews
